import Mathlib

/-!
Shallow embedding of `liberapay/utils/state_chain.py` (the policy steps of the
request-processing state chain) and proofs about the behaviour of those steps.

Modelling conventions:
* Byte strings (header names and values, paths, URLs) are modelled as `String`.
* Python header mappings (pando's `Mapping`, a dict from name to a list of
  values where plain lookup returns the last value, `__setitem__` stores a
  one-element list and `add` appends) are modelled as an ordered flat list of
  (name, value) pairs; per-name value order is preserved.
* Python dicts (cookie jars) are modelled as association lists; `dict.update`
  is modelled observationally: a lookup on the result sees the updating dict's
  value for its keys and the original dict's value otherwise.  (Python keeps an
  overwritten key at its old position, which none of the operations used here
  can observe.)
* Python object identity (`is`) is modelled by an `oid` field on response
  objects: two references denote the same object exactly when their `oid`s
  coincide.
* A function that may raise returns a sum/option type instead.
-/

/-- Python `s.startswith(t)` over the character list of a string. -/
def pyStartsWith (s t : String) : Bool := t.data.isPrefixOf s.data

/-- Python `s.endswith(t)`: the last `t.length` characters of `s` equal `t`. -/
def pyEndsWith (s t : String) : Bool := s.data.drop (s.length - t.length) == t.data

/-- Python slice `s[:n]` for nonnegative `n`. -/
def pyTake (s : String) (n : Nat) : String := ⟨s.data.take n⟩

/-- Python slice `s[:-k]` (drop the last `k` characters). -/
def pySliceToNeg (s : String) (k : Nat) : String := ⟨s.data.take (s.length - k)⟩

/-- List infix test: `needle` occurs contiguously in `hay`. -/
def listIsInfixOf : List Char → List Char → Bool
  | needle, [] => needle.isEmpty
  | needle, hay@(_ :: t) => needle.isPrefixOf hay || listIsInfixOf needle t

/-- Python `needle in haystack` for strings (substring containment). -/
def pyContainsSubstr (haystack needle : String) : Bool := listIsInfixOf needle.data haystack.data

/-- Python `s.lower()`, character by character (the messages involved are
ASCII, where this agrees with Python). -/
def pyToLower (s : String) : String := ⟨s.data.map Char.toLower⟩

/-- All values stored for a header name, in order (pando keeps a list per name). -/
def assocValues (d : List (String × String)) (k : String) : List String :=
  (d.filter (fun p => p.1 == k)).map (fun p => p.2)

/-- pando `Mapping.__getitem__` / `.get`: the last value stored for the name. -/
def headerGet (d : List (String × String)) (k : String) : Option String :=
  (assocValues d k).getLast?

/-- pando `Mapping.__setitem__`: replace all values for the name by a single one. -/
def headerSet (d : List (String × String)) (k v : String) : List (String × String) :=
  d.filter (fun p => !(p.1 == k)) ++ [(k, v)]

/-- pando `Mapping.add`: append one more value for the name. -/
def headerAdd (d : List (String × String)) (k v : String) : List (String × String) :=
  d ++ [(k, v)]

/-- pando `Mapping.pop`: remove the name (all its values). -/
def headerPop (d : List (String × String)) (k : String) : List (String × String) :=
  d.filter (fun p => !(p.1 == k))

/-- Python dict lookup on an association list (keys are unique in a real dict). -/
def dictGet (d : List (String × String)) (k : String) : Option String :=
  (d.find? (fun p => p.1 == k)).map (fun p => p.2)

/-- Python `d1.update(d2)`, observationally: keys of `d2` take `d2`'s value and
every other key keeps `d1`'s value. -/
def dictUpdate (d1 d2 : List (String × String)) : List (String × String) :=
  d1.filter (fun p => (d2.find? (fun q => q.1 == p.1)).isNone) ++ d2

/-- pando `Response`: status code, body, header multimap, cookie jar (an
attribute of the header object in pando, hence popped together with it during
the merge step), exception metadata (`whence raised`), and the lazy-body
descriptor carried by the `LazyResponse` subclass (`none` for a plain
response).  `oid` models Python object identity. -/
structure Response where
  oid : Nat
  code : Nat
  body : String
  headers : List (String × String)
  cookie : List (String × String)
  whenceRaised : Bool
  lazyBody : Option String
deriving DecidableEq

/-- pando `Response()`: a fresh response object, code 200, empty headers and
body.  Object identity is irrelevant for responses constructed inside the
steps modelled below, so they all carry `oid := 0`. -/
def newResponse : Response :=
  { oid := 0, code := 200, body := "", headers := [], cookie := [],
    whenceRaised := false, lazyBody := none }

/-- pando `Response.error(code, msg)`: turn the response into a
response-exception carrying the given status code and message (the caller
raises the returned object). -/
def Response.error (r : Response) (code : Nat) (msg : String) : Response :=
  { r with code := code, body := msg }

/-- pando `Response.redirect(url)`: set the code to 302 and the `Location`
header (the object is then raised by pando). -/
def Response.redirect (r : Response) (url : String) : Response :=
  { r with code := 302, headers := headerSet r.headers "Location" url }

/-- The request line: method, target URI and protocol version. -/
structure RequestLine where
  method : String
  uri : String
  version : String
deriving DecidableEq

/-- pando `Request`, restricted to the fields the state-chain steps read:
header mapping, `path.raw`, the decoded path and querystring of `line.uri`,
the request line, the `bypasses_proxy` flag, the source address, and the
`hostname` extension field written by `canonize`. -/
structure Request where
  headers : List (String × String)
  pathRaw : String
  uriPathDecoded : String
  uriQuerystring : String
  line : RequestLine
  bypasses_proxy : Bool
  source : String
  hostname : Option String
deriving DecidableEq

/-- Site configuration consumed by the steps: canonical host (empty string
means "no enforcement"), canonical scheme, and the recognized locale codes. -/
structure Website where
  canonical_host : String
  canonical_scheme : String
  locales : List String
deriving DecidableEq

/-- `reject_requests_bypassing_proxy`: raise (modelled as `some`) a 403
response-exception unless the request is the health check. -/
def reject_requests_bypassing_proxy (request : Request) (response : Response) :
    Option Response :=
  if request.bypasses_proxy && (request.pathRaw != "/callbacks/health") then
    some (response.error 403 "The request bypassed a proxy.")
  else none

/-- Identity of the external rate-limit counter being hit. -/
inductive RateLimitKey where
  | userId (id : Nat)
  | ipAddr (addr : String)
deriving DecidableEq

/-- One call to the external store `website.db.hit_rate_limit`. -/
structure RateLimitCall where
  bucket : String
  key : RateLimitKey
  errorSignal : String
deriving DecidableEq

/-- The authenticated participant: `id` is `none` for an anonymous user. -/
structure Participant where
  id : Option Nat
deriving DecidableEq

/-- Python truthiness of `user.id` (`None` and `0` are falsy). -/
def pyTruthyId : Option Nat → Bool
  | none => false
  | some n => n != 0

/-- `enforce_rate_limits`: the list of calls made to the external rate-limit
store (the store itself is an external collaborator; it raises the passed
error signal on threshold breach). -/
def enforce_rate_limits (request : Request) (user : Participant) : List RateLimitCall :=
  if request.line.method == "GET" || request.line.method == "HEAD" then []
  else if pyTruthyId user.id then
    [⟨"http-unsafe.user", RateLimitKey.userId (user.id.getD 0), "TooManyRequests"⟩]
  else
    [⟨"http-unsafe.ip-addr", RateLimitKey.ipAddr request.source, "TooManyRequests"⟩]

/-- The observable surface of one Python exception object as read by
`turn_socket_error_into_50X`: its class (`isinstance` against
`requests.exceptions.Timeout` and against `(socket.error, ConnectionError)`
is modelled by the two class flags) and its textual message (`str(e)`). -/
structure PyExcInfo where
  isTimeoutClass : Bool
  isSocketOrConnectionClass : Bool
  msg : String
deriving DecidableEq

/-- A caught Python exception together with its `__cause__` attribute (every
Python exception carries one, defaulting to `None`).  The step reads only the
class and message of the one-level-unwrapped value, so deeper cause chains
need not be modelled. -/
structure PyExc where
  info : PyExcInfo
  cause : Option PyExcInfo
deriving DecidableEq

/-- Python `str(x)` where `x` is an exception or `None`. -/
def pyStrOfExcValue : Option PyExcInfo → String
  | none => "None"
  | some e => e.msg

/-- `isinstance(x, Timeout)` where `x` may be `None`. -/
def isinstTimeout : Option PyExcInfo → Bool
  | none => false
  | some e => e.isTimeoutClass

/-- `isinstance(x, (socket.error, ConnectionError))` where `x` may be `None`. -/
def isinstSocketOrConnection : Option PyExcInfo → Bool
  | none => false
  | some e => e.isSocketOrConnectionClass

/-- The translated body set by `turn_socket_error_into_50X` (the default
translation function `_` is the identity). -/
def gatewayErrorBody : String :=
  "Processing your request failed because our server was unable to communicate with a service located on another machine. This is a temporary issue, please try again later."

/-- `turn_socket_error_into_50X`.  The first line of the source is
`exception = getattr(exception, '__cause__', exception)`; since every Python
exception has a `__cause__` attribute (defaulting to `None`), this evaluates
to the cause when one is set and to Python `None` otherwise — the `getattr`
default is never used.  `some r` models the returned
`{'response': r, 'exception': None}`; `none` models falling through. -/
def turn_socket_error_into_50X (exception : PyExc) (response : Option Response) :
    Option Response :=
  let unwrapped : Option PyExcInfo := exception.cause
  if isinstTimeout unwrapped ||
      pyContainsSubstr (pyToLower (pyStrOfExcValue unwrapped)) "timeout" then
    let r := response.getD newResponse
    some { r with code := 504, body := gatewayErrorBody }
  else if isinstSocketOrConnection unwrapped then
    let r := response.getD newResponse
    some { r with code := 502, body := gatewayErrorBody }
  else none

/-- `overwrite_status_code_of_gateway_errors`: change 502/504 to 500. -/
def overwrite_status_code_of_gateway_errors (response : Response) : Response :=
  if response.code == 502 || response.code == 504 then { response with code := 500 }
  else response

/-- A raised exception sitting in the state bag: either a response-exception
(pando `Response`, possibly the `LazyResponse` subclass) or any other
exception type. -/
inductive ChainExc where
  | resp (r : Response)
  | other (msg : String)
deriving DecidableEq

/-- The slice of the state bag read and written by the merge step. -/
structure MState where
  exception : Option ChainExc
  response : Option Response
deriving DecidableEq

/-- `Response.set_whence_raised()`: snapshot diagnostic provenance. -/
def set_whence_raised (r : Response) : Response := { r with whenceRaised := true }

/-- `LazyResponse.render_body(state)` followed by popping the `lazy_body`
attribute; a no-op on a plain response (no lazy marker). -/
def render_if_lazy (r : Response) : Response :=
  match r.lazyBody with
  | some b => { r with body := b, lazyBody := none }
  | none => r

/-- `merge_exception_into_response(state, exception, response=None)`.  Returns
the whole state unchanged when there is no response object or the exception is
not a `Response` (the source returns immediately, before clearing anything).
Otherwise: clear the exception entry, set the provenance snapshot, render a
lazy body, stop if the exception *is* the response object (`oid` equality),
and otherwise merge cookies (`dict.update`, exception wins), append every
exception header (`headers.add`), and copy the remaining attributes of the
exception's `__dict__` — `headers` (which carries the cookie jar) and
`lazy_body` having been popped — onto the response. -/
def merge_exception_into_response (state : MState) : MState :=
  match state.response, state.exception with
  | some response, some (ChainExc.resp e) =>
    let exc := render_if_lazy (set_whence_raised e)
    if exc.oid == response.oid then
      { state with exception := none, response := some exc }
    else
      let merged := { response with
        cookie := dictUpdate response.cookie exc.cookie,
        headers := response.headers ++ exc.headers,
        code := exc.code, body := exc.body,
        whenceRaised := exc.whenceRaised }
      { state with exception := none, response := some merged }
  | _, _ => state

/-- The result of splitting a URL: `urllib.parse.SplitResult`. -/
structure SplitResult where
  scheme : String
  netloc : String
  path : String
  query : String
  fragment : String
deriving DecidableEq

/-- The characters allowed after the first one in a URL scheme
(`urllib.parse.scheme_chars`). -/
def isSchemeChar (c : Char) : Bool :=
  c.isAlpha || c.isDigit || c == '+' || c == '-' || c == '.'

/-- Modern CPython removes tab, carriage return and newline from a URL before
splitting it. -/
def stripControlUrlChars (s : String) : String :=
  ⟨s.data.filter (fun c => !(c == '\t') && !(c == '\r') && !(c == '\n'))⟩

/-- Split a character list at the first occurrence of `c`; `none` when `c`
does not occur. -/
def splitAtFirst : List Char → Char → Option (List Char × List Char)
  | [], _ => none
  | x :: xs, c =>
    if x == c then some ([], xs)
    else (splitAtFirst xs c).map (fun p => (x :: p.1, p.2))

/-- Modelled after `urllib.parse.urlsplit` (Python standard library, an
external collaborator): extract the scheme (a leading alphabetic character
followed by scheme characters, before a colon, lowercased), the network
location after `//` (up to the next `/`, `?` or `#`), then the fragment after
the first `#`, then the query after the first `?`; the rest is the path.
CPython's validation errors for bracketed IPv6 hosts are not modelled. -/
def pyUrlsplit (url : String) : SplitResult :=
  let u0 := (stripControlUrlChars url).data
  let schemeAndRest : List Char × List Char :=
    match splitAtFirst u0 ':' with
    | some (before, after) =>
      match before with
      | [] => ([], u0)
      | c0 :: rest =>
        if c0.isAlpha && rest.all isSchemeChar then (before.map Char.toLower, after)
        else ([], u0)
    | none => ([], u0)
  let scheme := schemeAndRest.1
  let u1 := schemeAndRest.2
  let netlocAndRest : List Char × List Char :=
    if u1.take 2 == ['/', '/'] then
      let rest := u1.drop 2
      let nl := rest.takeWhile (fun c => !(c == '/') && !(c == '?') && !(c == '#'))
      (nl, rest.drop nl.length)
    else ([], u1)
  let netloc := netlocAndRest.1
  let u2 := netlocAndRest.2
  let pathAndFragment : List Char × List Char :=
    match splitAtFirst u2 '#' with
    | some (before, after) => (before, after)
    | none => (u2, [])
  let u3 := pathAndFragment.1
  let fragment := pathAndFragment.2
  let pathAndQuery : List Char × List Char :=
    match splitAtFirst u3 '?' with
    | some (before, after) => (before, after)
    | none => (u3, [])
  ⟨⟨scheme⟩, ⟨netloc⟩, ⟨pathAndQuery.1⟩, ⟨pathAndQuery.2⟩, ⟨fragment⟩⟩

/-- Modelled after `urllib.parse.urlunsplit` (Python standard library):
recombine the five components into a URL string. -/
def pyUrlunsplit (r : SplitResult) : String :=
  let url := r.path
  let url :=
    if r.netloc != "" || (url != "" && pyTake url 2 == "//") then
      let url := if url != "" && !(pyTake url 1 == "/") then "/" ++ url else url
      "//" ++ r.netloc ++ url
    else url
  let url := if r.scheme != "" then r.scheme ++ ":" ++ url else url
  let url := if r.query != "" then url ++ "?" ++ r.query else url
  if r.fragment != "" then url ++ "#" ++ r.fragment else url

/-- Modelled from the spec: `SAFE_METHODS` comes from
`liberapay.security.csrf`, which is not among the sources; the spec describes
it as "GET/HEAD and other safe methods". -/
def SAFE_METHODS : List String := ["GET", "HEAD", "OPTIONS"]

/-- The outcome of `canonize`: fall through with the (possibly mutated)
request, raise a redirect response, or escape with an uncaught `KeyError`
(missing `Host` header) / `AssertionError` (the sanity check on the split
path; an empty split path, which would make the Python indexing expression
itself fail, is folded into the same constructor). -/
inductive CanonizeResult where
  | ok (request : Request)
  | redirect (response : Response)
  | keyError
  | assertionError
deriving DecidableEq

/-- The `bad_scheme` test of `canonize`: the `X-Forwarded-Proto` header
(default `http`) differs from the canonical scheme. -/
def bad_scheme_of (headers : List (String × String)) (website : Website) : Bool :=
  ((headerGet headers "X-Forwarded-Proto").getD "http") != website.canonical_scheme

/-- The host examination block of `canonize` (lines guarded by
`if canonical_host:`): returns the `bad_host` flag together with the request
headers, to which the locale-subdomain branch prepends an `Accept-Language`
hint (`subdomain.encode('idna') + b',' + previous`). -/
def host_check (encodeIdna : String → String) (host : String)
    (headers : List (String × String)) (website : Website) :
    Bool × List (String × String) :=
  if website.canonical_host != "" then
    if host == website.canonical_host then (false, headers)
    else if pyEndsWith host ("." ++ website.canonical_host) then
      let subdomain := pySliceToNeg host (website.canonical_host.length + 1)
      if website.locales.contains subdomain then
        let acceptLangs := (headerGet headers "Accept-Language").getD ""
        (false, headerSet headers "Accept-Language"
          (encodeIdna subdomain ++ "," ++ acceptLangs))
      else (true, headers)
    else (true, headers)
  else (false, headers)

/-- `canonize(request, website)`.  The IDNA codec is external, so the decoding
of the `Host` header and the encoding of the subdomain are taken as
parameters (`decodeIdna` returns `none` for a `UnicodeDecodeError`, which the
source turns into an empty hostname). -/
def canonize (decodeIdna : String → Option String) (encodeIdna : String → String)
    (request : Request) (website : Website) : CanonizeResult :=
  match headerGet request.headers "Host" with
  | none => CanonizeResult.keyError
  | some hostHeader =>
    let host := (decodeIdna hostHeader).getD ""
    let request := { request with hostname := some host }
    if pyStartsWith request.pathRaw "/callbacks/" then
      if request.pathRaw.data.getLast? == some '/' then
        let s := pyUrlsplit request.line.uri
        if s.path.data.getLast? == some '/' then
          let newUri := pyUrlunsplit { s with path := ⟨s.path.data.dropLast⟩ }
          CanonizeResult.ok { request with line := { request.line with uri := newUri } }
        else CanonizeResult.assertionError
      else CanonizeResult.ok request
    else
      let badScheme := bad_scheme_of request.headers website
      let hc := host_check encodeIdna host request.headers website
      let request := { request with headers := hc.2 }
      if badScheme || hc.1 then
        let url := website.canonical_scheme ++ "://" ++
          (if hc.1 then website.canonical_host else host)
        let url :=
          if SAFE_METHODS.contains request.line.method then
            url ++ request.uriPathDecoded ++
              (if request.uriQuerystring != "" then "?" ++ request.uriQuerystring else "")
          else url ++ "/"
        let response := { newResponse with
          headers := headerSet newResponse.headers "Cache-Control" "public, max-age=86400" }
        CanonizeResult.redirect (response.redirect url)
      else CanonizeResult.ok request

/-- The outcome of `bypass_csp_for_form_redirects`: the (possibly rewritten)
response, or an uncaught `KeyError` on a missing `Location`/`Host` header. -/
inductive BypassResult where
  | ok (response : Response)
  | keyError
deriving DecidableEq

/-- `bypass_csp_for_form_redirects(response, state, website, request=None)`.
pando's `Response.refresh(state, interval=0, url=url)`, which renders an
immediate-refresh page for `url`, is external; it is taken as the parameter
`renderRefresh`, returning the rendered body or `none` when rendering raises a
`Response` (which the source swallows with a bare `except Response: pass`).
Note that the Python `or` in the `is_internal` expression short-circuits: the
`Host` header is only read when the target does not start with `/` or `.`. -/
def bypass_csp_for_form_redirects (renderRefresh : String → Option String)
    (website : Website) (response : Response) (request : Option Request) :
    BypassResult :=
  match request with
  | none => BypassResult.ok response
  | some request =>
    if response.code == 302 then
      match headerGet response.headers "Location" with
      | none => BypassResult.keyError
      | some target =>
        if pyTake target 1 == "/" || pyTake target 1 == "." then
          BypassResult.ok response
        else
          match headerGet request.headers "Host" with
          | none => BypassResult.keyError
          | some hostValue =>
            if pyStartsWith target
                (website.canonical_scheme ++ "://" ++ hostValue ++ "/") then
              BypassResult.ok response
            else
              let response := { response with
                                code := 200,
                                headers := headerPop response.headers "Location" }
              match renderRefresh target with
              | some b => BypassResult.ok { response with body := b }
              | none => BypassResult.ok response
    else BypassResult.ok response

/-- C5: for every request with `bypasses_proxy` set and raw path different
from `/callbacks/health`, `reject_requests_bypassing_proxy` raises a 403
response-exception carrying the message "The request bypassed a proxy.";
for every other request (flag unset, or path equal to `/callbacks/health`)
it raises nothing. -/
theorem C5_reject_requests_bypassing_proxy (request : Request) (response : Response) :
    (request.bypasses_proxy = true → request.pathRaw ≠ "/callbacks/health" →
      reject_requests_bypassing_proxy request response =
        some { response with code := 403, body := "The request bypassed a proxy." }) ∧
    (request.bypasses_proxy = false ∨ request.pathRaw = "/callbacks/health" →
      reject_requests_bypassing_proxy request response = none) := by
  constructor
  · intro h1 h2
    simp [reject_requests_bypassing_proxy, Response.error, h1, bne_iff_ne, h2]
  · rintro (h | h) <;> simp [reject_requests_bypassing_proxy, h]

/-- Witness for C5 at a concrete bypassing request. -/
theorem C5_witness :
    reject_requests_bypassing_proxy
      ⟨[], "/admin", "/admin", "", ⟨"POST", "/admin", "HTTP/1.1"⟩, true, "1.2.3.4", none⟩
      newResponse =
      some { newResponse with code := 403, body := "The request bypassed a proxy." } :=
  (C5_reject_requests_bypassing_proxy _ _).1 rfl (by decide)

/-- C6 (code bug): a timeout exception with no `__cause__` is replaced by
Python `None` by the line `exception = getattr(exception, '__cause__',
exception)` (the attribute always exists, so the default is dead), and the
step falls through instead of producing the 504 the spec describes. -/
theorem C6_turn_socket_error_timeout_without_cause :
    turn_socket_error_into_50X ⟨⟨true, false, "connection timeout"⟩, none⟩ none = none := by
  decide

/-- C8: `overwrite_status_code_of_gateway_errors` rewrites 502/504 to 500,
and its output never carries code 502 or 504. -/
theorem C8_overwrite_status_code_of_gateway_errors (response : Response) :
    ((response.code = 502 ∨ response.code = 504) →
      (overwrite_status_code_of_gateway_errors response).code = 500) ∧
    (overwrite_status_code_of_gateway_errors response).code ≠ 502 ∧
    (overwrite_status_code_of_gateway_errors response).code ≠ 504 := by
  unfold overwrite_status_code_of_gateway_errors
  by_cases h : response.code = 502
  · simp [h]
  · by_cases h2 : response.code = 504
    · simp [h2]
    · simp [h, h2]

/-- Witness for C8 at a concrete 502 response. -/
theorem C8_witness :
    (overwrite_status_code_of_gateway_errors { newResponse with code := 502 }).code = 500 :=
  (C8_overwrite_status_code_of_gateway_errors _).1 (Or.inl rfl)

/-- C9: `enforce_rate_limits` does nothing for GET/HEAD; for every other
method it calls the external store exactly once — bucket `http-unsafe.user`
keyed by the numeric account id when the user is authenticated, otherwise
bucket `http-unsafe.ip-addr` keyed by the source address — passing the
`TooManyRequests` error signal. -/
theorem C9_enforce_rate_limits (request : Request) (user : Participant) :
    ((request.line.method = "GET" ∨ request.line.method = "HEAD") →
      enforce_rate_limits request user = []) ∧
    (request.line.method ≠ "GET" → request.line.method ≠ "HEAD" →
      ((∀ n, user.id = some n → n ≠ 0 →
        enforce_rate_limits request user =
          [⟨"http-unsafe.user", RateLimitKey.userId n, "TooManyRequests"⟩]) ∧
      (user.id = none →
        enforce_rate_limits request user =
          [⟨"http-unsafe.ip-addr", RateLimitKey.ipAddr request.source,
            "TooManyRequests"⟩]))) := by
  constructor
  · rintro (h | h) <;> simp [enforce_rate_limits, h]
  · intro h1 h2
    constructor
    · intro n hn hn0
      simp [enforce_rate_limits, h1, h2, pyTruthyId, hn, bne_iff_ne, hn0]
    · intro hn
      simp [enforce_rate_limits, h1, h2, pyTruthyId, hn]

/-- Witness for C9 at a concrete POST request from an authenticated user. -/
theorem C9_witness :
    enforce_rate_limits
      ⟨[], "/x", "/x", "", ⟨"POST", "/x", "HTTP/1.1"⟩, false, "1.2.3.4", none⟩ ⟨some 5⟩ =
      [⟨"http-unsafe.user", RateLimitKey.userId 5, "TooManyRequests"⟩] :=
  ((C9_enforce_rate_limits _ _).2 (by decide) (by decide)).1 5 rfl (by decide)

theorem render_if_lazy_fields (r : Response) :
    (render_if_lazy r).oid = r.oid ∧ (render_if_lazy r).cookie = r.cookie ∧
    (render_if_lazy r).headers = r.headers := by
  unfold render_if_lazy
  cases h : r.lazyBody <;> simp [h]

theorem assocValues_append (a b : List (String × String)) (k : String) :
    assocValues (a ++ b) k = assocValues a k ++ assocValues b k := by
  unfold assocValues
  rw [List.filter_append, List.map_append]

theorem dictGet_dictUpdate_right (d1 d2 : List (String × String)) (k v : String)
    (h : dictGet d2 k = some v) : dictGet (dictUpdate d1 d2) k = some v := by
  unfold dictGet dictUpdate at *
  rw [List.find?_append]
  have hfil : (d1.filter (fun p => (d2.find? (fun q => q.1 == p.1)).isNone)).find?
      (fun p => p.1 == k) = none := by
    rw [List.find?_eq_none]
    intro p hp hbeq
    have hmem := List.mem_filter.mp hp
    have hk : p.1 = k := by simpa using hbeq
    rcases Option.map_eq_some'.mp h with ⟨q, hq, _⟩
    have := hmem.2
    simp only [hk, hq] at this
    simp at this
  rw [hfil]
  simpa using h

/-- C1: with a response-exception and a distinct pre-existing response object,
the merge step clears the exception entry, merges cookies so that the
exception's value wins for every cookie name the exception carries (in
particular for names present on both objects), and appends every exception
header onto the response's header multimap, so that for every header name the
resulting value list is the response's values followed by the exception's
values — both are present, nothing is overwritten. -/
theorem C1_merge_exception_into_response (state : MState) (e r : Response)
    (hexc : state.exception = some (ChainExc.resp e))
    (hresp : state.response = some r)
    (hdistinct : e.oid ≠ r.oid) :
    (merge_exception_into_response state).exception = none ∧
    (∀ name v, dictGet e.cookie name = some v →
      ((merge_exception_into_response state).response.map
        (fun m => dictGet m.cookie name)) = some (some v)) ∧
    (∀ name, ((merge_exception_into_response state).response.map
        (fun m => assocValues m.headers name)) =
      some (assocValues r.headers name ++ assocValues e.headers name)) := by
  have hfields := render_if_lazy_fields (set_whence_raised e)
  have hoid : ((render_if_lazy (set_whence_raised e)).oid == r.oid) = false := by
    rw [hfields.1]
    simpa [set_whence_raised] using hdistinct
  have hcookie : (render_if_lazy (set_whence_raised e)).cookie = e.cookie := by
    rw [hfields.2.1]; rfl
  have hheaders : (render_if_lazy (set_whence_raised e)).headers = e.headers := by
    rw [hfields.2.2]; rfl
  unfold merge_exception_into_response
  rw [hresp, hexc]
  simp only [hoid, Bool.false_eq_true, if_false]
  refine ⟨trivial, ?_, ?_⟩
  · intro name v hv
    show some (dictGet (dictUpdate r.cookie
        (render_if_lazy (set_whence_raised e)).cookie) name) = some (some v)
    rw [hcookie]
    exact congrArg some (dictGet_dictUpdate_right r.cookie e.cookie name v hv)
  · intro name
    show some (assocValues (r.headers ++
        (render_if_lazy (set_whence_raised e)).headers) name) =
      some (assocValues r.headers name ++ assocValues e.headers name)
    rw [hheaders, assocValues_append]

/-- The response-exception of the concrete merge example. -/
def mergeExcSample : Response :=
  { newResponse with oid := 2, cookie := [("session", "new")], headers := [("Vary", "Cookie")] }

/-- The pre-existing response of the concrete merge example. -/
def mergeRespSample : Response :=
  { newResponse with oid := 1, cookie := [("session", "old"), ("other", "x")], headers := [("Vary", "Accept-Language")] }

/-- The state of the concrete merge example. -/
def mergeStateSample : MState :=
  ⟨some (ChainExc.resp mergeExcSample), some mergeRespSample⟩

/-- Witness for C1: a concrete exception/response pair with a shared cookie
name and a shared header name. -/
theorem C1_witness :
    (merge_exception_into_response mergeStateSample).exception = none ∧
    (∀ name v, dictGet mergeExcSample.cookie name = some v →
      ((merge_exception_into_response mergeStateSample).response.map
        (fun m => dictGet m.cookie name)) = some (some v)) ∧
    (∀ name, ((merge_exception_into_response mergeStateSample).response.map
        (fun m => assocValues m.headers name)) =
      some (assocValues mergeRespSample.headers name ++
        assocValues mergeExcSample.headers name)) :=
  C1_merge_exception_into_response mergeStateSample mergeExcSample mergeRespSample
    rfl rfl (by decide)

/-- The response-exception of the no-pre-existing-response example. -/
def loneExcSample : Response := { newResponse with oid := 7, code := 403 }

/-- A state holding a response-exception but no response object. -/
def loneExcState : MState := ⟨some (ChainExc.resp loneExcSample), none⟩

/-- C2 counterexample: invoked with a response-exception but no pre-existing
response object in the state, the merge step returns immediately — the
exception entry is not cleared (and nothing becomes the canonical response),
contrary to the claim. -/
theorem C2_counterexample :
    merge_exception_into_response loneExcState = loneExcState ∧
    (merge_exception_into_response loneExcState).exception =
      some (ChainExc.resp loneExcSample) := by
  decide

/-- C2 (amended): when the merge step runs with a response-exception that is
itself the state's pre-existing response object, it clears the exception
entry and stops after the initial processing (provenance snapshot and lazy
rendering): the exception remains the canonical response as-is. -/
theorem C2_merge_exception_is_response (state : MState) (e r : Response)
    (hexc : state.exception = some (ChainExc.resp e))
    (hresp : state.response = some r)
    (hsame : e.oid = r.oid) :
    merge_exception_into_response state =
      (⟨none, some (render_if_lazy (set_whence_raised e))⟩ : MState) := by
  have hoid : ((render_if_lazy (set_whence_raised e)).oid == r.oid) = true := by
    rw [(render_if_lazy_fields (set_whence_raised e)).1]
    simpa [set_whence_raised] using hsame
  unfold merge_exception_into_response
  rw [hresp, hexc]
  simp only [hoid, if_true]

/-- The identical exception/response object of the C2 witness. -/
def sameObjSample : Response := { newResponse with oid := 3, code := 403 }

/-- Witness for C2 (amended) at a concrete identity pair. -/
theorem C2_witness :
    merge_exception_into_response
      ⟨some (ChainExc.resp sameObjSample), some sameObjSample⟩ =
      (⟨none, some (render_if_lazy (set_whence_raised sameObjSample))⟩ : MState) :=
  C2_merge_exception_is_response _ sameObjSample sameObjSample rfl rfl rfl

theorem host_check_locale_subdomain (encodeIdna : String → String)
    (sub : String) (headers : List (String × String)) (website : Website)
    (hch : website.canonical_host ≠ "")
    (hsub : sub ∈ website.locales) :
    host_check encodeIdna (sub ++ "." ++ website.canonical_host) headers website =
      (false, headerSet headers "Accept-Language"
        (encodeIdna sub ++ "," ++ (headerGet headers "Accept-Language").getD "")) := by
  have hdot : ("." : String).length = 1 := rfl
  have hsub_len : sub.length = sub.data.length := rfl
  have hdata : (sub ++ "." ++ website.canonical_host).data =
      sub.data ++ ("." ++ website.canonical_host).data := by
    simp only [String.data_append, List.append_assoc]
  have h1 : (website.canonical_host != "") = true := bne_iff_ne.mpr hch
  have h2 : ((sub ++ "." ++ website.canonical_host) == website.canonical_host) = false := by
    refine beq_eq_false_iff_ne.mpr (fun heq => ?_)
    have hl := congrArg String.length heq
    rw [String.length_append, String.length_append, hdot] at hl
    omega
  have hslen : (sub ++ "." ++ website.canonical_host).length -
      ("." ++ website.canonical_host).length = sub.data.length := by
    rw [String.length_append, String.length_append, String.length_append, hdot]
    omega
  have h3 : pyEndsWith (sub ++ "." ++ website.canonical_host)
      ("." ++ website.canonical_host) = true := by
    unfold pyEndsWith
    rw [hslen, hdata, List.drop_left]
    exact beq_self_eq_true _
  have hslen2 : (sub ++ "." ++ website.canonical_host).length -
      (website.canonical_host.length + 1) = sub.data.length := by
    rw [String.length_append, String.length_append, hdot]
    omega
  have h4 : pySliceToNeg (sub ++ "." ++ website.canonical_host)
      (website.canonical_host.length + 1) = sub := by
    unfold pySliceToNeg
    rw [hslen2, hdata, List.take_left]
  have h5 : website.locales.contains sub = true := List.elem_eq_true_of_mem hsub
  simp only [host_check, h1, if_true, h2, Bool.false_eq_true, if_false, h3, h4, h5]

/-- C3 (amended): for every non-callback request whose `Host` header decodes
to a subdomain of the (nonempty) canonical host whose label is a recognized
locale code, and whose forwarded scheme matches the canonical scheme,
`canonize` prepends the IDNA-encoded subdomain followed by a comma to the
`Accept-Language` header, does not treat the host as bad, and falls through
without a redirect. -/
theorem C3_canonize_locale_subdomain (decodeIdna : String → Option String)
    (encodeIdna : String → String) (request : Request) (website : Website)
    (hh sub : String)
    (hHost : headerGet request.headers "Host" = some hh)
    (hdec : decodeIdna hh = some (sub ++ "." ++ website.canonical_host))
    (hch : website.canonical_host ≠ "")
    (hsub : sub ∈ website.locales)
    (hcb : pyStartsWith request.pathRaw "/callbacks/" = false)
    (hscheme : (headerGet request.headers "X-Forwarded-Proto").getD "http" =
      website.canonical_scheme) :
    canonize decodeIdna encodeIdna request website = CanonizeResult.ok
      { request with
        hostname := some (sub ++ "." ++ website.canonical_host),
        headers := headerSet request.headers "Accept-Language"
          (encodeIdna sub ++ "," ++
            (headerGet request.headers "Accept-Language").getD "") } := by
  have hbs : bad_scheme_of request.headers website = false := by
    unfold bad_scheme_of
    rw [hscheme]
    exact bne_self_eq_false _
  have hhc := host_check_locale_subdomain encodeIdna sub request.headers website hch hsub
  unfold canonize
  rw [hHost]
  simp only [hdec, Option.getD_some, hcb, Bool.false_eq_true, if_false, hbs, hhc,
    Bool.false_or]

/-- The concrete site configuration used by the canonize examples. -/
def localeWebsite : Website := ⟨"liberapay.com", "https", ["fr"]⟩

/-- A request for a locale subdomain arriving over a non-canonical scheme. -/
def localeBadSchemeRequest : Request :=
  ⟨[("Host", "fr.liberapay.com"), ("X-Forwarded-Proto", "http")], "/about",
    "/about", "", ⟨"GET", "/about", "HTTP/1.1"⟩, false, "1.2.3.4", none⟩

/-- C3 counterexample: with a recognized locale subdomain but a bad forwarded
scheme, `canonize` does produce a redirect, contradicting the claim that a
locale-subdomain request never redirects. -/
theorem C3_counterexample :
    canonize some id localeBadSchemeRequest localeWebsite =
      CanonizeResult.redirect (Response.redirect
        { newResponse with
          headers := headerSet newResponse.headers "Cache-Control"
            "public, max-age=86400" }
        "https://fr.liberapay.com/about") := by
  decide

/-- A request for a locale subdomain arriving over the canonical scheme. -/
def localeGoodRequest : Request :=
  ⟨[("Host", "fr.liberapay.com"), ("X-Forwarded-Proto", "https"),
      ("Accept-Language", "en")], "/about",
    "/about", "", ⟨"GET", "/about", "HTTP/1.1"⟩, false, "1.2.3.4", none⟩

/-- Witness for C3 (amended) at a concrete locale-subdomain request. -/
theorem C3_witness :
    canonize some id localeGoodRequest localeWebsite = CanonizeResult.ok
      { localeGoodRequest with
        hostname := some ("fr" ++ "." ++ localeWebsite.canonical_host),
        headers := headerSet localeGoodRequest.headers "Accept-Language"
          (id "fr" ++ "," ++
            (headerGet localeGoodRequest.headers "Accept-Language").getD "") } :=
  C3_canonize_locale_subdomain some id localeGoodRequest localeWebsite
    "fr.liberapay.com" "fr" rfl (by decide) (by decide) (by decide) (by decide)
    (by decide)

/-- C4: for every non-callback request with a `Host` header and a bad scheme
or bad host, `canonize` raises a redirect response whose code is 302, whose
`Cache-Control` header is `public, max-age=86400` (one day, public), and
whose `Location` target is the canonical scheme followed by the canonical
host when the host was bad (the original decoded host otherwise), followed by
the original path and query string for safe methods but by only `/` for
non-safe methods. -/
theorem C4_canonize_redirect (decodeIdna : String → Option String)
    (encodeIdna : String → String) (request : Request) (website : Website)
    (hh : String)
    (hHost : headerGet request.headers "Host" = some hh)
    (hcb : pyStartsWith request.pathRaw "/callbacks/" = false)
    (hbad : (bad_scheme_of request.headers website ||
      (host_check encodeIdna ((decodeIdna hh).getD "") request.headers website).1)
      = true) :
    ∃ resp, canonize decodeIdna encodeIdna request website =
      CanonizeResult.redirect resp ∧
      resp.code = 302 ∧
      headerGet resp.headers "Cache-Control" = some "public, max-age=86400" ∧
      headerGet resp.headers "Location" = some
        (if SAFE_METHODS.contains request.line.method then
          website.canonical_scheme ++ "://" ++
            (if (host_check encodeIdna ((decodeIdna hh).getD "")
                request.headers website).1
              then website.canonical_host else (decodeIdna hh).getD "") ++
            request.uriPathDecoded ++
            (if request.uriQuerystring != "" then "?" ++ request.uriQuerystring
             else "")
        else
          website.canonical_scheme ++ "://" ++
            (if (host_check encodeIdna ((decodeIdna hh).getD "")
                request.headers website).1
              then website.canonical_host else (decodeIdna hh).getD "") ++ "/") := by
  unfold canonize
  rw [hHost]
  simp only [hcb, Bool.false_eq_true, if_false, hbad, if_true]
  exact ⟨_, rfl, rfl, rfl, rfl⟩

/-- A POST request with a host unrelated to the canonical host. -/
def badHostRequest : Request :=
  ⟨[("Host", "elsewhere.com")], "/admin", "/admin", "",
    ⟨"POST", "/admin", "HTTP/1.1"⟩, false, "1.2.3.4", none⟩

/-- Witness for C4: a bad-host POST redirects to the canonical root. -/
theorem C4_witness :
    ∃ resp, canonize some id badHostRequest localeWebsite =
      CanonizeResult.redirect resp ∧
      resp.code = 302 ∧
      headerGet resp.headers "Cache-Control" = some "public, max-age=86400" ∧
      headerGet resp.headers "Location" = some "https://liberapay.com/" :=
  C4_canonize_redirect some id badHostRequest localeWebsite "elsewhere.com"
    rfl (by decide) (by decide)

/-- C10: for every request whose raw path starts with `/callbacks/` and ends
with `/`, and whose request-line URI splits to a path component equal to that
raw path, the trailing-slash branch of `canonize` is safe: the sanity
assertion holds and the branch completes, rebuilding the request line with
the final slash removed and the scheme, authority, query and fragment of the
split URI preserved (method and version unchanged). -/
theorem C10_canonize_callbacks_strip_slash (decodeIdna : String → Option String)
    (encodeIdna : String → String) (request : Request) (website : Website)
    (hh : String)
    (hHost : headerGet request.headers "Host" = some hh)
    (hcb : pyStartsWith request.pathRaw "/callbacks/" = true)
    (hlast : request.pathRaw.data.getLast? = some '/')
    (hpath : (pyUrlsplit request.line.uri).path = request.pathRaw) :
    canonize decodeIdna encodeIdna request website =
      CanonizeResult.ok
        { request with
          hostname := some ((decodeIdna hh).getD ""),
          line := ⟨request.line.method,
            pyUrlunsplit ⟨(pyUrlsplit request.line.uri).scheme,
              (pyUrlsplit request.line.uri).netloc,
              ⟨request.pathRaw.data.dropLast⟩,
              (pyUrlsplit request.line.uri).query,
              (pyUrlsplit request.line.uri).fragment⟩,
            request.line.version⟩ } := by
  unfold canonize
  rw [hHost]
  simp only [hcb, if_true, hpath, hlast, beq_self_eq_true]

/-- A callback POST whose URI carries a trailing slash and a query string. -/
def callbackRequest : Request :=
  ⟨[("Host", "liberapay.com")], "/callbacks/paypal/", "/callbacks/paypal/", "",
    ⟨"POST", "https://liberapay.com/callbacks/paypal/?x=1", "HTTP/1.1"⟩,
    false, "1.2.3.4", none⟩

/-- Witness for C10 at a concrete callback request. -/
theorem C10_witness :
    canonize some id callbackRequest localeWebsite =
      CanonizeResult.ok
        { callbackRequest with
          hostname := some "liberapay.com",
          line := ⟨"POST", "https://liberapay.com/callbacks/paypal?x=1",
            "HTTP/1.1"⟩ } :=
  C10_canonize_callbacks_strip_slash some id callbackRequest localeWebsite
    "liberapay.com" rfl (by decide) (by decide) (by decide)

/-- C7: `bypass_csp_for_form_redirects` leaves non-302 responses unchanged;
it leaves a 302 unchanged (still 302 with its `Location` header) when the
target starts with `/`, `.`, or `<canonical_scheme>://<Host>/`; otherwise it
rewrites the code to 200, removes the `Location` header, and sets the
refresh body for the external URL — and when rendering the refresh body
raises a response-exception (`renderRefresh` returns `none`), that exception
is swallowed and the body is left as it was. -/
theorem C7_bypass_csp_for_form_redirects (renderRefresh : String → Option String)
    (website : Website) (response : Response) (request : Request)
    (target hostValue : String) :
    (response.code ≠ 302 →
      bypass_csp_for_form_redirects renderRefresh website response (some request) =
        BypassResult.ok response) ∧
    (response.code = 302 →
      headerGet response.headers "Location" = some target →
      (pyTake target 1 = "/" ∨ pyTake target 1 = "." ∨
        (headerGet request.headers "Host" = some hostValue ∧
          pyStartsWith target
            (website.canonical_scheme ++ "://" ++ hostValue ++ "/") = true)) →
      bypass_csp_for_form_redirects renderRefresh website response (some request) =
        BypassResult.ok response) ∧
    (response.code = 302 →
      headerGet response.headers "Location" = some target →
      headerGet request.headers "Host" = some hostValue →
      pyTake target 1 ≠ "/" → pyTake target 1 ≠ "." →
      pyStartsWith target
        (website.canonical_scheme ++ "://" ++ hostValue ++ "/") = false →
      bypass_csp_for_form_redirects renderRefresh website response (some request) =
        BypassResult.ok { response with
          code := 200,
          headers := headerPop response.headers "Location",
          body := (renderRefresh target).getD response.body }) := by
  refine ⟨?_, ?_, ?_⟩
  · intro h
    unfold bypass_csp_for_form_redirects
    simp [beq_iff_eq, h]
  · intro h hloc hint
    unfold bypass_csp_for_form_redirects
    rcases hint with h1 | h1 | ⟨hhost, h1⟩
    · simp [h, hloc, h1]
    · simp [h, hloc, h1]
    · by_cases hc1 : pyTake target 1 = "/"
      · simp [h, hloc, hc1]
      · by_cases hc2 : pyTake target 1 = "."
        · simp [h, hloc, hc2]
        · simp [h, hloc, hc1, hc2, hhost, h1]
  · intro h hloc hhost h1 h2 h3
    unfold bypass_csp_for_form_redirects
    cases hr : renderRefresh target <;>
      simp [h, hloc, hhost, h1, h2, h3, hr]

/-- The 302 response of the CSP-bypass example, pointing at an external URL. -/
def cspResponse : Response :=
  { newResponse with
    code := 302,
    headers := [("Location", "https://evil.example/x")] }

/-- The request of the CSP-bypass example, with Host `mysite.com`. -/
def cspRequest : Request :=
  ⟨[("Host", "mysite.com")], "/pay", "/pay", "",
    ⟨"POST", "/pay", "HTTP/1.1"⟩, false, "1.2.3.4", none⟩

/-- Witness for C7: the external 302 is rewritten to a 200 refresh. -/
theorem C7_witness :
    bypass_csp_for_form_redirects (fun u => some ("Refresh: " ++ u)) localeWebsite
      cspResponse (some cspRequest) =
      BypassResult.ok { cspResponse with
        code := 200,
        headers := headerPop cspResponse.headers "Location",
        body := ((fun u => some ("Refresh: " ++ u))
          "https://evil.example/x").getD cspResponse.body } :=
  (C7_bypass_csp_for_form_redirects (fun u => some ("Refresh: " ++ u))
    localeWebsite cspResponse cspRequest "https://evil.example/x" "mysite.com").2.2
    (by decide) (by decide) (by decide) (by decide) (by decide) (by decide)
